import Mathlib

/-!
Verification of the LibreUser OAuth2 (GitHub) flow and database pool accessor.

The definitions shallowly embed the two Rust source files:
  * `src/oauth/github.rs` — route registration, the authorization initiator
    (`auth`), the callback handler (`callback`), and the profile-fetch
    adapter (`get_user_info_from_github`);
  * `src/database/mod.rs` — the pooled-connection accessor (`get_conn`).

External effects (the Redis store, the OAuth token exchange, the HTTP call
to the profile endpoint) are passed in as explicit functions returning
`Except`, and the handlers additionally report the list of external calls
they performed, so that "no token exchange happens" is a statement about
the returned trace.
-/

namespace LibreUser

/-! ## Constants from `src/oauth/github.rs` -/

def GITHUB_CALLBACK_PATH : String := "/auth/github/callback"

def GITHUB_AUTH_URL : String := "https://github.com/login/oauth/authorize"

def GITHUB_TOKEN_URL : String := "https://github.com/login/oauth/access_token"

def GITHUB_USER_API_URL : String := "https://api.github.com/user"

/-- A Redis error, kept abstract (only its presence matters). -/
abbrev RedisError : Type := String

/-- Modelled from the spec: the `super::Error` type of `crate::oauth` is not
under `src/`; from its uses in `github.rs` it has at least the variants
`Authentication` and `Other(&str)`, and the spec's §7 lists a third kind,
the store-lookup failure produced by the `?` conversion from `RedisError`
in the callback handler. -/
inductive Error where
  | Authentication : Error
  | Other : String → Error
  | Store : RedisError → Error
deriving DecidableEq, Repr

/-- Modelled from the spec: `super::CallbackQuery` is not under `src/`; from
its uses (`query.state.secret()`, `query.code`) it carries the CSRF state
token and the authorization code, both strings supplied as query
parameters. -/
structure CallbackQuery where
  state : String
  code : String
deriving DecidableEq, Repr

/-- `oauth2::basic::BasicTokenType`: `Bearer`, `Mac`, or an extension type. -/
inductive BasicTokenType where
  | Bearer : BasicTokenType
  | Mac : BasicTokenType
  | Extension : String → BasicTokenType
deriving DecidableEq, Repr

/-- The slice of `StandardTokenResponse` the handlers read: the access token,
the token type, and the optional scope list. -/
structure TokenResponse where
  accessToken : String
  tokenType : BasicTokenType
  scopes : Option (List String)
deriving DecidableEq, Repr

/-- The GitHub user profile (`GitHubUser` in `github.rs`); `Url` fields are
kept as strings and the timestamp as an optional string. -/
structure GitHubUser where
  name : Option String
  email : Option String
  login : String
  id : Nat
  node_id : String
  avatar_url : String
  gravatar_id : String
  url : String
  html_url : String
  followers_url : String
  following_url : String
  gists_url : String
  starred_url : String
  subscriptions_url : String
  organizations_url : String
  repos_url : String
  events_url : String
  received_events_url : String
  type_ : String
  site_admin : Bool
  starred_at : Option String
deriving DecidableEq, Repr

/-- An HTTP response produced by a handler: status code and headers. -/
structure HttpResponse where
  status : Nat
  headers : List (String × String)
deriving DecidableEq, Repr

/-- A URL as a base plus query parameters. -/
structure Url where
  base : String
  query : List (String × String)
deriving DecidableEq, Repr

/-- Serialize a `Url` the way `authorize_url.as_str()` presents it. -/
def Url.render (u : Url) : String :=
  u.base ++ "?" ++ String.intercalate "&" (u.query.map fun p => p.1 ++ "=" ++ p.2)

/-! ## The authorization initiator (`auth` in `github.rs`) -/

/-- Model of the oauth2 library call
`client.authorize_url(CsrfToken::new_random).add_scope("public_repo")
.add_scope("user:email").set_pkce_challenge(challenge).url()`:
it returns the provider authorization URL whose query carries the standard
parameters — in particular `state` set to the freshly generated CSRF token
and the PKCE challenge — together with that CSRF token. The randomly
generated CSRF token is passed in as `csrf`. -/
def authorizeUrl (clientId redirectUri challenge csrf : String) : Url × String :=
  (⟨GITHUB_AUTH_URL,
    [("response_type", "code"),
     ("client_id", clientId),
     ("state", csrf),
     ("code_challenge", challenge),
     ("code_challenge_method", "S256"),
     ("redirect_uri", redirectUri),
     ("scope", "public_repo user:email")]⟩, csrf)

/-- The `auth` handler. `pkce` is the freshly generated
(challenge, verifier) pair, `csrf` the freshly generated CSRF token, and
`storeSet` the Redis `SET` call. The source discards the store-write
result (`let _ = redis.set::<_,_,()>(csrf_state, pkce_verifier).await;`)
and unconditionally answers 303 with the `Location` and `X-CSRF-Token`
headers. -/
def auth (clientId redirectUri : String) (pkce : String × String) (csrf : String)
    (storeSet : String → String → Except RedisError Unit) : HttpResponse :=
  let authorized := authorizeUrl clientId redirectUri pkce.1 csrf
  let authorize_url := authorized.1
  let csrf_state := authorized.2
  let _ := storeSet csrf_state pkce.2
  { status := 303
    headers := [("Location", authorize_url.render), ("X-CSRF-Token", csrf_state)] }

/-! ## The profile-fetch adapter (`get_user_info_from_github`) and the
callback handler (`callback`) -/

/-- An external call performed by the callback path, recorded so that
"reaches the token exchange" is a statement about the trace. -/
inductive Effect where
  | storeGet : String → Effect
  | tokenExchange : String → String → Effect
  | profileFetch : String → Effect
deriving DecidableEq, Repr

/-- The reqwest response from the provider profile endpoint: HTTP status
and body. -/
structure ProfileHttpResponse where
  status : Nat
  body : String
deriving DecidableEq, Repr

/-- The scope list computed at the top of `get_user_info_from_github`:
GitHub's comma-separated scopes are split at commas (`flat_map(split(','))`);
a missing scope list yields the empty vector. The result is only logged. -/
def github_scopes (token : TokenResponse) : List String :=
  match token.scopes with
  | some scopes_vec => scopes_vec.flatMap (fun comma_separated => comma_separated.splitOn ",")
  | none => []

/-- `get_user_info_from_github`. `http` is the reqwest GET to
`GITHUB_USER_API_URL` carrying `Authorization: Bearer <access token>`
(its `Except.error` case is reqwest's send failure, which the source maps
to `Error::Other("Failed to get user info from Github")`); `parseUser` is
serde's JSON decoding of the body into `GitHubUser`. The second component
lists the network calls performed. -/
def get_user_info_from_github (token : TokenResponse)
    (http : String → Except String ProfileHttpResponse)
    (parseUser : String → Option GitHubUser) :
    Except Error GitHubUser × List Effect :=
  let _scopes := github_scopes token
  match token.tokenType with
  | .Bearer =>
    match http token.accessToken with
    | .error _ =>
      (.error (.Other "Failed to get user info from Github"),
       [.profileFetch token.accessToken])
    | .ok response =>
      if response.status = 200 then
        match parseUser response.body with
        | some user_info => (.ok user_info, [.profileFetch token.accessToken])
        | none =>
          (.error (.Other "Failed to parse user info from Github"),
           [.profileFetch token.accessToken])
      else if response.status = 401 then
        (.error .Authentication, [.profileFetch token.accessToken])
      else
        (.error (.Other "Failed to get user info from Github"),
         [.profileFetch token.accessToken])
  | _ => (.error (.Other "Unsupported token type"), [])

/-- The `callback` handler. `storeGet` is the Redis `GET` by CSRF state
token (its error case covers both a key miss and a store failure, the
`?` converting the `RedisError`); `exchange_code` is the oauth2 token
exchange given the authorization code and the PKCE verifier, already
converted to `Error` by the `?`. On success of all three steps the source
answers `HttpResponse::Ok().finish()`. -/
def callback (query : CallbackQuery)
    (storeGet : String → Except RedisError String)
    (exchange_code : String → String → Except Error TokenResponse)
    (http : String → Except String ProfileHttpResponse)
    (parseUser : String → Option GitHubUser) :
    Except Error HttpResponse × List Effect :=
  match storeGet query.state with
  | .error e => (.error (.Store e), [.storeGet query.state])
  | .ok pkce_verifier =>
    match exchange_code query.code pkce_verifier with
    | .error e =>
      (.error e, [.storeGet query.state, .tokenExchange query.code pkce_verifier])
    | .ok token =>
      let fetched := get_user_info_from_github token http parseUser
      let pre := [Effect.storeGet query.state,
                  Effect.tokenExchange query.code pkce_verifier]
      match fetched.1 with
      | .error e => (.error e, pre ++ fetched.2)
      | .ok _user => (.ok { status := 200, headers := [] }, pre ++ fetched.2)

/-! ## Route registration (`github_config`) -/

/-- The OAuth client built in `github_config`: credentials, the two fixed
provider endpoints, and the redirect URL. -/
structure GitHubClientCfg where
  clientId : String
  clientSecret : String
  authUrl : String
  tokenUrl : String
  redirectUrl : String
deriving DecidableEq, Repr

/-- What `github_config` contributes to the `ServiceConfig`: the list of
registered route paths (scope prefix concatenated with route path) and
the client stored as app data, when built. -/
structure ServiceCfg where
  routes : List String
  client : Option GitHubClientCfg
deriving DecidableEq, Repr

/-- `github_config`: reads `GITHUB_CLIENT_ID` and `GITHUB_CLIENT_SECRET`
from the environment (`env`); if either is missing it logs and returns
without registering anything. Otherwise it builds the client whose
redirect URL is `HOST_URL.to_string() + GITHUB_CALLBACK_PATH` (`host` is
the `HOST_URL` value from `crate::env`, not under `src/`) and registers
the scope "/github" with routes "/auth" and "/callback". -/
def github_config (host : String) (env : String → Option String) : ServiceCfg :=
  match env "GITHUB_CLIENT_ID", env "GITHUB_CLIENT_SECRET" with
  | some client_id, some client_secret =>
    { routes := ["/github" ++ "/auth", "/github" ++ "/callback"]
      client := some { clientId := client_id
                       clientSecret := client_secret
                       authUrl := GITHUB_AUTH_URL
                       tokenUrl := GITHUB_TOKEN_URL
                       redirectUrl := host ++ GITHUB_CALLBACK_PATH } }
  | _, _ => { routes := [], client := none }

/-! ## The pooled-connection accessor (`get_conn` in `database/mod.rs`) -/

/-- Modelled from the spec: `crate::error::ServiceError` is not under
`src/`; §7 lists the pool error kind, and the two `?` conversions in
`get_conn` come from the r2d2 checkout error (exhausted / timed out) and
actix's `BlockingError`. -/
inductive ServiceError where
  | PoolError : String → ServiceError
  | BlockingError : String → ServiceError
deriving DecidableEq, Repr

/-- `get_conn`: `Ok(web::block(move || pool.get()).await??)`. The blocking
task yields the pool checkout result; the outer `?` converts a failed
blocking task, the inner one a failed checkout. `Conn` abstracts the
pooled connection type. -/
def get_conn {Conn : Type} (blockResult : Except String (Except String Conn)) :
    Except ServiceError Conn :=
  match blockResult with
  | .error e => .error (.BlockingError e)
  | .ok (.error e) => .error (.PoolError e)
  | .ok (.ok conn) => .ok conn

/-! ## Sequences of handler invocations over the shared store (for the
CSRF-token / verifier invariant) -/

/-- Redis `SET`: insert, or overwrite the value at an existing key. -/
def redisSet (store : List (String × String)) (k v : String) :
    List (String × String) :=
  if store.any (fun p => p.1 == k) then
    store.map (fun p => if p.1 == k then (k, v) else p)
  else (k, v) :: store

/-- Redis `GET`. -/
def redisGet (store : List (String × String)) (k : String) : Option String :=
  (store.find? (fun p => p.1 == k)).map (fun p => p.2)

/-- The observable state across a sequence of handler invocations: the
Redis contents, and the log of token exchanges performed, each recorded
as (authorization code, PKCE verifier). -/
structure FlowState where
  store : List (String × String)
  exchanges : List (String × String)
deriving DecidableEq, Repr

/-- One handler invocation: `auth` with its freshly generated CSRF token
and PKCE verifier, or `callback` with the provider-supplied state token
and authorization code. -/
inductive FlowOp where
  | authOp : String → String → FlowOp
  | callbackOp : String → String → FlowOp
deriving DecidableEq, Repr

/-- The store/exchange effect of one invocation, read off the handlers:
`auth` performs `SET csrf verifier` (and nothing else touches the store);
`callback state code` performs `GET state` and, exactly when that
succeeds, proceeds to the token exchange with the found verifier. Neither
handler deletes a key. -/
def flowStep (s : FlowState) : FlowOp → FlowState
  | .authOp csrf verifier => { s with store := redisSet s.store csrf verifier }
  | .callbackOp state code =>
    match redisGet s.store state with
    | none => s
    | some verifier => { s with exchanges := s.exchanges ++ [(code, verifier)] }

/-- Run a sequence of invocations from the empty store. -/
def flowRun (ops : List FlowOp) : FlowState :=
  ops.foldl flowStep ⟨[], []⟩

/-- The CSRF tokens generated by the `auth` invocations of a run. -/
def authTokens : List FlowOp → List String
  | [] => []
  | .authOp csrf _ :: ops => csrf :: authTokens ops
  | .callbackOp _ _ :: ops => authTokens ops

/-- How many token exchanges of a run used the verifier `v`. -/
def verifierUses (s : FlowState) (v : String) : Nat :=
  (s.exchanges.filter (fun e => e.2 == v)).length

end LibreUser

namespace LibreUser

/-- C2: the authorization initiator answers 303 with a `Location` header set
to the provider authorization URL and an `X-CSRF-Token` header equal to the
`state` query parameter embedded in that URL. -/
theorem auth_status_and_headers (clientId redirectUri challenge verifier csrf : String)
    (storeSet : String → String → Except RedisError Unit) :
    (auth clientId redirectUri (challenge, verifier) csrf storeSet).status = 303 ∧
    (auth clientId redirectUri (challenge, verifier) csrf storeSet).headers.lookup "Location"
      = some (authorizeUrl clientId redirectUri challenge csrf).1.render ∧
    (auth clientId redirectUri (challenge, verifier) csrf storeSet).headers.lookup "X-CSRF-Token"
      = some csrf ∧
    (authorizeUrl clientId redirectUri challenge csrf).1.query.lookup "state" = some csrf := by
  refine ⟨rfl, rfl, rfl, ?_⟩
  simp [authorizeUrl, List.lookup]

/-- C3: the authorization initiator's response does not depend on the
outcome of the store write — any store-write failure is swallowed and the
303 redirect is returned regardless. -/
theorem auth_ignores_store_failure (clientId redirectUri : String)
    (pkce : String × String) (csrf : String)
    (storeSet storeSet' : String → String → Except RedisError Unit) :
    auth clientId redirectUri pkce csrf storeSet
      = auth clientId redirectUri pkce csrf storeSet' ∧
    (auth clientId redirectUri pkce csrf storeSet).status = 303 := by
  exact ⟨rfl, rfl⟩

/-- C1: if the store lookup of the CSRF state token fails (key miss or
store error), the callback returns the store-lookup failure and its trace
is exactly the one store read — in particular no token exchange is
performed; the exchange is reached only when the lookup succeeded. -/
theorem callback_store_failure_no_exchange (query : CallbackQuery)
    (storeGet : String → Except RedisError String)
    (exchange_code : String → String → Except Error TokenResponse)
    (http : String → Except String ProfileHttpResponse)
    (parseUser : String → Option GitHubUser) (e : RedisError)
    (h : storeGet query.state = Except.error e) :
    callback query storeGet exchange_code http parseUser
      = (Except.error (Error.Store e), [Effect.storeGet query.state]) := by
  simp [callback, h]

/-- Witness for C1 at a concrete unknown state token. -/
theorem callback_store_failure_no_exchange_witness :
    callback ⟨"badstate", "code1"⟩ (fun _ => Except.error "key miss")
        (fun _ _ => Except.error (Error.Other "never"))
        (fun _ => Except.error "never") (fun _ => none)
      = (Except.error (Error.Store "key miss"), [Effect.storeGet "badstate"]) :=
  callback_store_failure_no_exchange ⟨"badstate", "code1"⟩ _ _ _ _ "key miss" rfl

/-- C4: a non-Bearer token type makes the profile-fetch adapter return
`Other "Unsupported token type"` with an empty trace: no HTTP request to
the profile endpoint is issued; the network call happens only in the
Bearer case. -/
theorem profile_non_bearer_no_request (token : TokenResponse)
    (http : String → Except String ProfileHttpResponse)
    (parseUser : String → Option GitHubUser)
    (h : token.tokenType ≠ BasicTokenType.Bearer) :
    get_user_info_from_github token http parseUser
      = (Except.error (Error.Other "Unsupported token type"), []) := by
  unfold get_user_info_from_github
  match htt : token.tokenType with
  | .Bearer => exact absurd htt h
  | .Mac => simp [htt]
  | .Extension s => simp [htt]

/-- Witness for C4 with a MAC-type token. -/
theorem profile_non_bearer_no_request_witness :
    get_user_info_from_github ⟨"tok", BasicTokenType.Mac, none⟩
        (fun _ => Except.ok ⟨200, "{}"⟩) (fun _ => none)
      = (Except.error (Error.Other "Unsupported token type"), []) :=
  profile_non_bearer_no_request ⟨"tok", BasicTokenType.Mac, none⟩ _ _ (by simp)

/-- C5: for a Bearer token whose profile request comes back with response
`resp`, status 200 leads to parsing the body into `GitHubUser`, status 401
to `Error.Authentication`, and any other status to the generic
`Other "Failed to get user info from Github"`. -/
theorem profile_status_mapping (token : TokenResponse)
    (http : String → Except String ProfileHttpResponse)
    (parseUser : String → Option GitHubUser) (resp : ProfileHttpResponse)
    (hb : token.tokenType = BasicTokenType.Bearer)
    (hh : http token.accessToken = Except.ok resp) :
    (get_user_info_from_github token http parseUser).1
      = if resp.status = 200 then
          match parseUser resp.body with
          | some user_info => Except.ok user_info
          | none => Except.error (Error.Other "Failed to parse user info from Github")
        else if resp.status = 401 then
          Except.error Error.Authentication
        else
          Except.error (Error.Other "Failed to get user info from Github") := by
  unfold get_user_info_from_github
  rw [hb]
  simp only [hh]
  by_cases h200 : resp.status = 200
  · simp [h200]
    cases parseUser resp.body <;> simp
  · by_cases h401 : resp.status = 401 <;> simp [h200, h401]

/-- Witness for C5: a 401 response yields the Authentication error. -/
theorem profile_status_mapping_witness :
    (get_user_info_from_github ⟨"tok", BasicTokenType.Bearer, none⟩
        (fun _ => Except.ok ⟨401, ""⟩) (fun _ => none)).1
      = Except.error Error.Authentication := by
  have h := profile_status_mapping ⟨"tok", BasicTokenType.Bearer, none⟩
    (fun _ => Except.ok ⟨401, ""⟩) (fun _ => none) ⟨401, ""⟩ rfl rfl
  simpa using h

/-- C6: a 200 response whose body fails to parse yields a failure value
distinct from the failure returned for a non-200/non-401 status. -/
theorem profile_parse_failure_distinct
    (token token' : TokenResponse)
    (http http' : String → Except String ProfileHttpResponse)
    (parseUser parseUser' : String → Option GitHubUser)
    (resp resp' : ProfileHttpResponse)
    (hb : token.tokenType = BasicTokenType.Bearer)
    (hh : http token.accessToken = Except.ok resp)
    (hs : resp.status = 200)
    (hp : parseUser resp.body = none)
    (hb' : token'.tokenType = BasicTokenType.Bearer)
    (hh' : http' token'.accessToken = Except.ok resp')
    (hs1 : resp'.status ≠ 200)
    (hs2 : resp'.status ≠ 401) :
    (get_user_info_from_github token http parseUser).1
      = Except.error (Error.Other "Failed to parse user info from Github") ∧
    (get_user_info_from_github token' http' parseUser').1
      = Except.error (Error.Other "Failed to get user info from Github") ∧
    (get_user_info_from_github token http parseUser).1
      ≠ (get_user_info_from_github token' http' parseUser').1 := by
  have h1 := profile_status_mapping token http parseUser resp hb hh
  have h2 := profile_status_mapping token' http' parseUser' resp' hb' hh'
  rw [hs] at h1
  simp only [if_pos rfl, hp] at h1
  rw [if_neg hs1, if_neg hs2] at h2
  refine ⟨h1, h2, ?_⟩
  rw [h1, h2]
  simp

/-- Witness for C6: a concrete malformed-body 200 response against a
concrete 500 response. -/
theorem profile_parse_failure_distinct_witness :
    (get_user_info_from_github ⟨"tok", BasicTokenType.Bearer, none⟩
        (fun _ => Except.ok ⟨200, "not json"⟩) (fun _ => none)).1
      = Except.error (Error.Other "Failed to parse user info from Github") ∧
    (get_user_info_from_github ⟨"tok2", BasicTokenType.Bearer, none⟩
        (fun _ => Except.ok ⟨500, ""⟩) (fun _ => none)).1
      = Except.error (Error.Other "Failed to get user info from Github") ∧
    (get_user_info_from_github ⟨"tok", BasicTokenType.Bearer, none⟩
        (fun _ => Except.ok ⟨200, "not json"⟩) (fun _ => none)).1
      ≠ (get_user_info_from_github ⟨"tok2", BasicTokenType.Bearer, none⟩
        (fun _ => Except.ok ⟨500, ""⟩) (fun _ => none)).1 :=
  profile_parse_failure_distinct ⟨"tok", BasicTokenType.Bearer, none⟩
    ⟨"tok2", BasicTokenType.Bearer, none⟩
    (fun _ => Except.ok ⟨200, "not json"⟩) (fun _ => Except.ok ⟨500, ""⟩)
    (fun _ => none) (fun _ => none) ⟨200, "not json"⟩ ⟨500, ""⟩
    rfl rfl rfl rfl rfl rfl (by simp) (by simp)

/-! ### Helper lemmas about the Redis model and runs -/

theorem find_map_set_hit (l : List (String × String)) (k v : String)
    (h : ∃ p ∈ l, p.1 == k) :
    (l.map (fun p => if p.1 == k then (k, v) else p)).find?
        (fun p => p.1 == k) = some (k, v) := by
  induction l with
  | nil => simp at h
  | cons p ps ih =>
    by_cases hp : p.1 == k
    · rw [List.map_cons, if_pos hp]
      exact List.find?_cons_of_pos _ (by simp)
    · have h' : ∃ q ∈ ps, q.1 == k := by
        rcases h with ⟨q, hq, hqk⟩
        rcases List.mem_cons.mp hq with rfl | hq'
        · exact absurd hqk hp
        · exact ⟨q, hq', hqk⟩
      rw [List.map_cons, if_neg hp,
        List.find?_cons_of_neg (p := fun (r : String × String) => r.1 == k) _ hp]
      exact ih h'

theorem find_map_set_other (l : List (String × String)) (k k' v : String)
    (h : ¬ (k' == k : Bool)) :
    (l.map (fun p => if p.1 == k' then (k', v) else p)).find?
        (fun p => p.1 == k) = l.find? (fun p => p.1 == k) := by
  induction l with
  | nil => rfl
  | cons p ps ih =>
    by_cases hp : p.1 == k'
    · have hpe : p.1 = k' := eq_of_beq hp
      have hpk : ¬ (p.1 == k : Bool) := by rw [hpe]; simpa using h
      rw [List.map_cons, if_pos hp,
        List.find?_cons_of_neg (p := fun (r : String × String) => r.1 == k) _ (by simpa using h),
        List.find?_cons_of_neg (p := fun (r : String × String) => r.1 == k) _ hpk]
      exact ih
    · rw [List.map_cons, if_neg hp]
      by_cases hk : p.1 == k
      · rw [List.find?_cons_of_pos (p := fun (r : String × String) => r.1 == k) _ hk,
          List.find?_cons_of_pos (p := fun (r : String × String) => r.1 == k) _ hk]
      · rw [List.find?_cons_of_neg (p := fun (r : String × String) => r.1 == k) _ hk,
          List.find?_cons_of_neg (p := fun (r : String × String) => r.1 == k) _ hk]
        exact ih

theorem redisGet_redisSet_self (store : List (String × String)) (k v : String) :
    redisGet (redisSet store k v) k = some v := by
  unfold redisSet redisGet
  by_cases h : store.any (fun p => p.1 == k)
  · rw [if_pos h, find_map_set_hit store k v (by simpa [List.any_eq_true] using h)]
    rfl
  · rw [if_neg h]
    simp [List.find?]

theorem redisGet_redisSet_other (store : List (String × String)) (k k' v : String)
    (h : k ≠ k') :
    redisGet (redisSet store k' v) k = redisGet store k := by
  unfold redisSet redisGet
  by_cases hany : store.any (fun p => p.1 == k')
  · rw [if_pos hany, find_map_set_other store k k' v (by simpa using h.symm)]
  · rw [if_neg hany]
    have : ((k', v).1 == k) = false := by simpa using h.symm
    simp [List.find?, this]

theorem flowStep_callback_store (s : FlowState) (st code : String) :
    (flowStep s (.callbackOp st code)).store = s.store := by
  simp only [flowStep]
  cases redisGet s.store st <;> rfl

theorem foldl_store_untouched (ops : List FlowOp) (s : FlowState) (k : String)
    (h : k ∉ authTokens ops) :
    redisGet (ops.foldl flowStep s).store k = redisGet s.store k := by
  induction ops generalizing s with
  | nil => rfl
  | cons op ops ih =>
    cases op with
    | authOp c v =>
      have hk : k ≠ c ∧ k ∉ authTokens ops := by
        simpa [authTokens] using h
      rw [List.foldl_cons, ih _ hk.2]
      exact redisGet_redisSet_other s.store k c v hk.1
    | callbackOp st code =>
      have hk : k ∉ authTokens ops := by simpa [authTokens] using h
      rw [List.foldl_cons, ih _ hk]
      rw [flowStep_callback_store]

theorem foldl_store_maps (ops : List FlowOp) (s : FlowState)
    (hnd : (authTokens ops).Nodup) (c v : String)
    (hmem : FlowOp.authOp c v ∈ ops) :
    redisGet ((ops.foldl flowStep s)).store c = some v := by
  induction ops generalizing s with
  | nil => cases hmem
  | cons op ops ih =>
    cases op with
    | authOp c' v' =>
      have hnd' : c' ∉ authTokens ops ∧ (authTokens ops).Nodup := by
        simpa [authTokens] using hnd
      rcases List.mem_cons.mp hmem with heq | hmem'
      · injection heq with h1 h2
        subst h1; subst h2
        rw [List.foldl_cons]
        rw [foldl_store_untouched ops _ c hnd'.1]
        exact redisGet_redisSet_self s.store c v
      · rw [List.foldl_cons]
        exact ih _ hnd'.2 hmem'
    | callbackOp st code =>
      have hnd' : (authTokens ops).Nodup := by simpa [authTokens] using hnd
      rcases List.mem_cons.mp hmem with heq | hmem'
      · cases heq
      · rw [List.foldl_cons]
        exact ih _ hnd' hmem'

/-- C7 counterexample: after one `auth` stores token "t" ↦ verifier "v",
two callbacks presenting the same state token "t" both reach the token
exchange with verifier "v" — the verifier is used in two exchanges,
because the callback handler deletes nothing from the store. -/
theorem verifier_reuse_counterexample :
    verifierUses (flowRun [FlowOp.authOp "t" "v", FlowOp.callbackOp "t" "c1",
        FlowOp.callbackOp "t" "c2"]) "v" = 2 ∧
    (flowRun [FlowOp.authOp "t" "v", FlowOp.callbackOp "t" "c1",
        FlowOp.callbackOp "t" "c2"]).exchanges = [("c1", "v"), ("c2", "v")] := by
  exact ⟨by decide, by decide⟩

/-- C7 (amended): in every run whose `auth` invocations generate pairwise
distinct CSRF tokens, each CSRF token maps to exactly the one PKCE
verifier stored with it; but a stored verifier can be consumed by more
than one token exchange, since no deletion is performed — single use
relies on an external expiry policy. -/
theorem csrf_token_single_verifier (ops : List FlowOp)
    (hnd : (authTokens ops).Nodup) (c v : String)
    (hmem : FlowOp.authOp c v ∈ ops) :
    redisGet (flowRun ops).store c = some v :=
  foldl_store_maps ops ⟨[], []⟩ hnd c v hmem

/-- Witness for the amended C7 on a one-`auth` run. -/
theorem csrf_token_single_verifier_witness :
    redisGet (flowRun [FlowOp.authOp "t" "v"]).store "t" = some "v" :=
  csrf_token_single_verifier [FlowOp.authOp "t" "v"]
    (by simp [authTokens]) "t" "v" (by simp)

/-- C8: if either credential is missing from the environment, route
registration registers zero routes and no client; if both are present,
exactly the two routes "/github/auth" and "/github/callback" are
registered. -/
theorem github_config_routes (host : String) (env : String → Option String) :
    ((env "GITHUB_CLIENT_ID" = none ∨ env "GITHUB_CLIENT_SECRET" = none) →
      github_config host env = { routes := [], client := none }) ∧
    (∀ client_id client_secret,
      env "GITHUB_CLIENT_ID" = some client_id →
      env "GITHUB_CLIENT_SECRET" = some client_secret →
      (github_config host env).routes = ["/github/auth", "/github/callback"]) := by
  constructor
  · intro h
    unfold github_config
    cases hI : env "GITHUB_CLIENT_ID" with
    | none => rfl
    | some client_id =>
      cases hS : env "GITHUB_CLIENT_SECRET" with
      | none => rfl
      | some client_secret =>
        rcases h with h | h
        · rw [h] at hI; cases hI
        · rw [h] at hS; cases hS
  · intro client_id client_secret h1 h2
    unfold github_config
    rw [h1, h2]
    rfl

/-- Witness for C8: an empty environment registers nothing; a full one
registers the two routes. -/
theorem github_config_routes_witness :
    github_config "https://h" (fun _ => none)
      = { routes := [], client := none } ∧
    (github_config "https://h" (fun k => some k)).routes
      = ["/github/auth", "/github/callback"] :=
  ⟨(github_config_routes "https://h" (fun _ => none)).1 (Or.inl rfl),
   (github_config_routes "https://h" (fun k => some k)).2
     "GITHUB_CLIENT_ID" "GITHUB_CLIENT_SECRET" rfl rfl⟩

/-- C9: `get_conn` yields either a checked-out connection (when the
blocking task ran and the checkout succeeded), a pool `ServiceError`
(checkout failed), or a blocking-task `ServiceError`; no other outcome is
possible. -/
theorem get_conn_outcomes {Conn : Type}
    (blockResult : Except String (Except String Conn)) :
    (∃ conn, get_conn blockResult = Except.ok conn ∧
      blockResult = Except.ok (Except.ok conn)) ∨
    (∃ e, get_conn blockResult = Except.error (ServiceError.PoolError e) ∧
      blockResult = Except.ok (Except.error e)) ∨
    (∃ e, get_conn blockResult = Except.error (ServiceError.BlockingError e) ∧
      blockResult = Except.error e) := by
  match blockResult with
  | .error e => exact Or.inr (Or.inr ⟨e, rfl, rfl⟩)
  | .ok (.error e) => exact Or.inr (Or.inl ⟨e, rfl, rfl⟩)
  | .ok (.ok conn) => exact Or.inl ⟨conn, rfl, rfl⟩

/-- C10: whenever the client is built, its redirect URL is
`HOST_URL ++ "/auth/github/callback"`, while the callback handler is
mounted at "/github/callback"; the two paths differ, so the URL the
provider redirects back to is not the registered callback route. -/
theorem callback_path_mismatch (host : String) (env : String → Option String)
    (cfg : GitHubClientCfg)
    (hc : (github_config host env).client = some cfg) :
    cfg.redirectUrl = host ++ "/auth/github/callback" ∧
    "/github/callback" ∈ (github_config host env).routes ∧
    GITHUB_CALLBACK_PATH ≠ "/github/callback" ∧
    cfg.redirectUrl ≠ host ++ "/github/callback" := by
  unfold github_config at hc ⊢
  cases h1 : env "GITHUB_CLIENT_ID" with
  | none => rw [h1] at hc; cases hc
  | some client_id =>
    cases h2 : env "GITHUB_CLIENT_SECRET" with
    | none => rw [h1, h2] at hc; cases hc
    | some client_secret =>
      rw [h1, h2] at hc
      injection hc with hc
      subst hc
      refine ⟨rfl, ?_, by decide, ?_⟩
      · show ("/github/callback" : String) ∈ ["/github" ++ "/auth", "/github" ++ "/callback"]
        simp
      intro hbad
      have hbad' : host ++ GITHUB_CALLBACK_PATH = host ++ "/github/callback" := hbad
      have hlen := congrArg String.length hbad'
      simp only [String.length_append] at hlen
      have h21 : (GITHUB_CALLBACK_PATH).length = 21 := by decide
      have h16 : ("/github/callback" : String).length = 16 := by decide
      rw [h21, h16] at hlen
      omega

/-- Witness for C10 at a concrete host and fully populated environment. -/
theorem callback_path_mismatch_witness :
    ({ clientId := "id", clientSecret := "sec", authUrl := GITHUB_AUTH_URL,
       tokenUrl := GITHUB_TOKEN_URL,
       redirectUrl := "https://example.com" ++ GITHUB_CALLBACK_PATH :
       GitHubClientCfg }).redirectUrl
      = "https://example.com" ++ "/auth/github/callback" ∧
    "/github/callback" ∈ (github_config "https://example.com"
      (fun k => if k = "GITHUB_CLIENT_ID" then some "id" else some "sec")).routes ∧
    GITHUB_CALLBACK_PATH ≠ "/github/callback" ∧
    ({ clientId := "id", clientSecret := "sec", authUrl := GITHUB_AUTH_URL,
       tokenUrl := GITHUB_TOKEN_URL,
       redirectUrl := "https://example.com" ++ GITHUB_CALLBACK_PATH :
       GitHubClientCfg }).redirectUrl
      ≠ "https://example.com" ++ "/github/callback" :=
  callback_path_mismatch "https://example.com"
    (fun k => if k = "GITHUB_CLIENT_ID" then some "id" else some "sec")
    { clientId := "id", clientSecret := "sec", authUrl := GITHUB_AUTH_URL,
      tokenUrl := GITHUB_TOKEN_URL,
      redirectUrl := "https://example.com" ++ GITHUB_CALLBACK_PATH } (by rfl)

end LibreUser
